import Mathlib

/-!
Shallow embedding of the CrescitaDigitale bot's exchange ledger and
request-lifecycle engine (src/bot.py, src/config.py).

The SQLite store is modelled as a `DB` record of row lists, one per table
that the verified operations touch (`users`, `interactions`,
`user_interactions`, `purchase_forms`, `screenshots`).  Python integers and
SQLite INTEGER columns are modelled as `Int`; SQLite REAL (the euro price
of a purchase form) as `ℚ`; TEXT as `String`.  Each `DatabaseManager`
method and each transport-layer handler becomes a pure function from the
store (plus its arguments) to a result paired with the new store.
Sequential semantics: one operation runs to completion at a time.
-/

namespace Crescita

/-- Action kinds, the keys of `ACTION_COSTS` in src/config.py and src/bot.py. -/
inductive ActionType where
  | like
  | follow
  | commento
  | condivisione_story
  | visualizzazione_reel
  | salvataggio
  | invio_chat
deriving DecidableEq, Repr

/-- Cost table `ACTION_COSTS` (src/bot.py lines 426-434). -/
def ACTION_COSTS : ActionType → Int
  | .like => 1
  | .follow => 5
  | .commento => 6
  | .condivisione_story => 10
  | .visualizzazione_reel => 5
  | .salvataggio => 5
  | .invio_chat => 1

/-- Profile slot recorded with a completion (`profile_type` column; the
code stores the strings primary / secondary_1 / secondary_2). -/
inductive ProfileType where
  | primary
  | secondary_1
  | secondary_2
deriving DecidableEq, Repr

/-- One row of the `users` table, restricted to the columns the verified
operations read or write (identity and coin balance; the Instagram handle
columns are never consulted by the ledger operations modelled here). -/
structure UserRow where
  telegram_id : Int
  coin_balance : Int
deriving DecidableEq, Repr

/-- One row of the `interactions` table (src/bot.py lines 80-95). -/
structure Interaction where
  id : Int
  requester_id : Int
  post_link : String
  action_type : ActionType
  quantity : Int
  cost_per_action : Int
  total_cost : Int
  completed_count : Int
  status : String
deriving DecidableEq, Repr

/-- One row of the `user_interactions` table (src/bot.py lines 98-110):
who completed which interaction, with credited earnings, the profile slot
used, and an optional screenshot reference. -/
structure UserInteraction where
  user_id : Int
  interaction_id : Int
  earnings : Int
  profile_type : ProfileType
  screenshot_id : Option String
deriving DecidableEq, Repr

/-- One row of the `purchase_forms` table (src/bot.py lines 138-150). -/
structure PurchaseForm where
  user_id : Int
  name : String
  phone : String
  coins_requested : Int
  amount_euro : ℚ
deriving DecidableEq, Repr

/-- One row of the `screenshots` table (src/bot.py lines 153-163),
restricted to the key columns. -/
structure Screenshot where
  id : String
  user_id : Int
  interaction_id : Int
deriving DecidableEq, Repr

/-- The store: the tables touched by the ledger, registry, completion and
purchase operations.  `next_interaction_id` models the AUTOINCREMENT key
of `interactions` (SQLite row ids start at 1). -/
structure DB where
  users : List UserRow
  interactions : List Interaction
  next_interaction_id : Int
  user_interactions : List UserInteraction
  purchase_forms : List PurchaseForm
  screenshots : List Screenshot
deriving DecidableEq, Repr

/-- The freshly initialised store (`init_database` creates empty tables). -/
def DB.init : DB :=
  { users := []
    interactions := []
    next_interaction_id := 1
    user_interactions := []
    purchase_forms := []
    screenshots := [] }

/-- `DatabaseManager.get_user` (src/bot.py lines 175-195). -/
def get_user (db : DB) (telegram_id : Int) : Option UserRow :=
  db.users.find? (fun u => u.telegram_id == telegram_id)

/-- `DatabaseManager.create_user` (src/bot.py lines 197-211): INSERT of the
bare id; the schema default gives the new row `coin_balance = 10`; a
duplicate primary key raises IntegrityError and the method returns False. -/
def create_user (db : DB) (telegram_id : Int) : Bool × DB :=
  if db.users.any (fun u => u.telegram_id == telegram_id) then
    (false, db)
  else
    (true, { db with users := db.users ++ [{ telegram_id := telegram_id, coin_balance := 10 }] })

/-- `DatabaseManager.update_user_balance` (src/bot.py lines 213-224):
adds `amount` to the balance of the matching row; reports whether a row
was updated. -/
def update_user_balance (db : DB) (telegram_id : Int) (amount : Int) : Bool × DB :=
  (db.users.any (fun u => u.telegram_id == telegram_id),
   { db with
      users := db.users.map (fun u =>
        if u.telegram_id == telegram_id then
          { u with coin_balance := u.coin_balance + amount }
        else u) })

/-- `DatabaseManager.create_interaction_request` (src/bot.py lines
291-309): inserts a request row with `total_cost = quantity *
cost_per_action`, `completed_count` 0 and status active, and returns the
fresh AUTOINCREMENT id. -/
def create_interaction_request (db : DB) (user_id : Int) (post_link : String)
    (action_type : ActionType) (quantity cost_per_action : Int) : Int × DB :=
  let iid := db.next_interaction_id
  (iid,
   { db with
      interactions := db.interactions ++
        [{ id := iid
           requester_id := user_id
           post_link := post_link
           action_type := action_type
           quantity := quantity
           cost_per_action := cost_per_action
           total_cost := quantity * cost_per_action
           completed_count := 0
           status := "active" }]
      next_interaction_id := iid + 1 })

/-- SELECT of one `interactions` row by id (used by the handlers at
src/bot.py lines 839-844, 1639-1643, 1733-1737). -/
def find_interaction (db : DB) (interaction_id : Int) : Option Interaction :=
  db.interactions.find? (fun i => i.id == interaction_id)

/-- Whether a completion row for the pair already exists, the SELECT at
the top of `complete_interaction` (src/bot.py lines 317-321). -/
def hasCompleted (db : DB) (user_id interaction_id : Int) : Bool :=
  db.user_interactions.any (fun c =>
    c.user_id == user_id && c.interaction_id == interaction_id)

/-- `DatabaseManager.complete_interaction` (src/bot.py lines 311-349):
if a completion row for (user_id, interaction_id) exists, return False and
change nothing; otherwise insert the completion row, increment the
request's `completed_count`, and credit `earnings` to the acting user's
balance (the UPDATE matches no row when the user does not exist). -/
def complete_interaction (db : DB) (user_id interaction_id earnings : Int)
    (profile_type : ProfileType) (screenshot_id : Option String) : Bool × DB :=
  if hasCompleted db user_id interaction_id then
    (false, db)
  else
    (true,
     { db with
        user_interactions := db.user_interactions ++
          [{ user_id := user_id
             interaction_id := interaction_id
             earnings := earnings
             profile_type := profile_type
             screenshot_id := screenshot_id }]
        interactions := db.interactions.map (fun i =>
          if i.id == interaction_id then
            { i with completed_count := i.completed_count + 1 }
          else i)
        users := db.users.map (fun u =>
          if u.telegram_id == user_id then
            { u with coin_balance := u.coin_balance + earnings }
          else u) })

/-- Scaling exponent of the binary64 conversion: the number of halvings
needed to bring `m` below 2^53 (0 when `m` already fits in the 53-bit
significand).  The fuel argument only bounds the recursion; 1100 halvings
cover every magnitude below 2^1153, far beyond the 2^1024 range of a
double (CPython raises OverflowError beyond it, and the SQLite INTEGER
columns feeding these conversions cannot even hold values of 2^63 or
more). -/
def floatScale : Nat → Nat → Nat
  | 0, _ => 0
  | fuel + 1, m => if m < 2 ^ 53 then 0 else floatScale fuel (m / 2) + 1

/-- Round a natural number to the nearest binary64-representable integer:
keep 53 significant bits, rounding half to even, as IEEE-754 conversion
does. -/
def roundFloatNat (m : Nat) : Nat :=
  let e := floatScale 1100 m
  if e = 0 then m
  else
    let q := m / 2 ^ e
    let r := m % 2 ^ e
    let half := 2 ^ (e - 1)
    if r < half then q * 2 ^ e
    else if half < r then (q + 1) * 2 ^ e
    else if q % 2 = 0 then q * 2 ^ e else (q + 1) * 2 ^ e

/-- CPython int → float conversion: round the magnitude to the nearest
53-significant-bit value, half to even.  Exact below 2^53. -/
def roundFloat (n : Int) : Int :=
  if n < 0 then -(roundFloatNat n.natAbs) else roundFloatNat n.natAbs

/-- `calculate_earnings` (src/bot.py lines 446-451): Python's
`int(cost * 0.25)` and `int(cost * 0.125)`.  The int operand is first
converted to a double, rounding it to 53 significant bits; multiplying
the result by 0.25 = 2^-2 (resp. 0.125 = 2^-3) is then exact binary
floating-point scaling, and `int` truncates toward zero, so the result is
the truncated quotient of the rounded cost by 4 (resp. 8). -/
def calculate_earnings (cost : Int) (profile_type : ProfileType) : Int :=
  if profile_type = .primary then
    Int.tdiv (roundFloat cost) 4
  else
    Int.tdiv (roundFloat cost) 8

/-- Predicate of the SELECT in `get_available_interactions` (src/bot.py
lines 258-267): requester is someone else, status active, not yet full,
and the JOIN requires the requester to have a users row. -/
def availablePred (db : DB) (user_id : Int) (i : Interaction) : Bool :=
  i.requester_id != user_id &&
  i.status == "active" &&
  decide (i.completed_count < i.quantity) &&
  db.users.any (fun u => u.telegram_id == i.requester_id)

/-- `DatabaseManager.get_available_interactions` (src/bot.py lines
252-289): the filtered rows in the random order chosen by ORDER BY
RANDOM(), truncated by LIMIT.  The random order is abstracted as a
`shuffle` parameter; the theorems assume only that it permutes its
input. -/
def get_available_interactions (shuffle : List Interaction → List Interaction)
    (db : DB) (user_id : Int) (limit : Nat) : List Interaction :=
  (shuffle (db.interactions.filter (availablePred db user_id))).take limit

/-- Result of the quantity step of the new-request flow. -/
inductive QuantityResult where
  | reprompt
  | crashed
  | insufficient
  | created (interaction_id : Int)
deriving DecidableEq, Repr

/-- `handle_quantity` (src/bot.py lines 1572-1629), the terminal step of
the new-request flow.  `input` is the outcome of `int(text)`: `none` when
parsing raised ValueError.  Non-integers and non-positive integers
re-prompt the same state; with insufficient balance the flow ends with no
state change; otherwise the total cost is debited and the request row
inserted.  `crashed` marks the unhandled exception the Python code raises
when the user row is missing (`user['coin_balance']` on None); it happens
before any write. -/
def handle_quantity (db : DB) (user_id : Int) (action_type : ActionType)
    (post_link : String) (input : Option Int) : QuantityResult × DB :=
  match input with
  | none => (.reprompt, db)
  | some quantity =>
    if quantity ≤ 0 then
      (.reprompt, db)
    else
      match get_user db user_id with
      | none => (.crashed, db)
      | some user =>
        let cost_per_action := ACTION_COSTS action_type
        let total_cost := quantity * cost_per_action
        if user.coin_balance < total_cost then
          (.insufficient, db)
        else
          let db1 := (update_user_balance db user_id (-total_cost)).2
          let r := create_interaction_request db1 user_id post_link action_type
                     quantity cost_per_action
          (.created r.1, r.2)

/-- Result of a confirm-completion attempt. -/
inductive ConfirmResult where
  | notFound
  | alreadyCompleted
  | completed (earnings : Int)
deriving DecidableEq, Repr

/-- `handle_confirm_action` (src/bot.py lines 1631-1667): look the request
up; if absent report not found and change nothing; otherwise compute the
primary-profile earnings and call `complete_interaction`. -/
def handle_confirm_action (db : DB) (user_id interaction_id : Int) :
    ConfirmResult × DB :=
  match find_interaction db interaction_id with
  | none => (.notFound, db)
  | some row =>
    let earnings := calculate_earnings row.cost_per_action .primary
    let r := complete_interaction db user_id interaction_id earnings .primary none
    (if r.1 then .completed earnings else .alreadyCompleted, r.2)

/-- Result of the composed completion.record operation. -/
inductive RecordResult where
  | notFound
  | proofRequired
  | alreadyCompleted
  | completed (earnings : Int)
deriving DecidableEq, Repr

/-- Embedding of the outcome of `handle_confirm_action` into the composed
completion.record outcome. -/
def toRecordResult : ConfirmResult → RecordResult
  | .notFound => .notFound
  | .alreadyCompleted => .alreadyCompleted
  | .completed e => .completed e

/-- The completion.record operation as the transport layer composes it:
`handle_do_action` (src/bot.py lines 836-855) looks the request up with a
JOIN on `users` — so a request whose requester has no users row is
reported not found — and routes a request priced at 5 or more to the
screenshot flow (src/bot.py lines 899-905), so a completion attempt
without a proof reference only prompts for proof and records nothing,
while cheaper requests go to `handle_confirm_action`;
`handle_screenshot_upload` (src/bot.py lines 1688-1778) stores the
screenshot row and then re-reads the request without the JOIN (line 1735)
before calling `complete_interaction` with the screenshot. -/
def record_completion (db : DB) (user_id interaction_id : Int)
    (proofRef : Option String) : RecordResult × DB :=
  match find_interaction db interaction_id with
  | none => (.notFound, db)
  | some row =>
    if db.users.any (fun u => u.telegram_id == row.requester_id) then
      if 5 ≤ row.cost_per_action then
        match proofRef with
        | none => (.proofRequired, db)
        | some sid =>
          let db1 := { db with
            screenshots := db.screenshots ++
              [{ id := sid, user_id := user_id, interaction_id := interaction_id }] }
          match find_interaction db1 interaction_id with
          | none => (.notFound, db1)
          | some row2 =>
            let earnings := calculate_earnings row2.cost_per_action .primary
            let r := complete_interaction db1 user_id interaction_id earnings
                       .primary (some sid)
            (if r.1 then .completed earnings else .alreadyCompleted, r.2)
      else
        let r0 := handle_confirm_action db user_id interaction_id
        (toRecordResult r0.1, r0.2)
    else
      (.notFound, db)

/-- Result of the coin-amount step of the purchase-intake flow. -/
inductive PurchaseResult where
  | reprompt
  | submitted (coins : Int) (price : ℚ)
deriving DecidableEq, Repr

/-- Binary64 value of Python's `coins_requested * 0.03` for a positive
amount: the double nearest 0.03 is 8646911284551352 · 2^-58, the int
operand is converted to a double (`roundFloat`), and the product is
rounded again to 53 significant bits; scaling by powers of two is exact,
so the rounded product is `roundFloatNat` of the integer significand
product over 2^58. -/
def mul003 (n : Int) : ℚ :=
  ((roundFloatNat ((roundFloat n).toNat * 8646911284551352) : ℤ) : ℚ) / 2 ^ 58

/-- `purchase_coins_handler` (src/bot.py lines 1456-1524), the terminal
step of the purchase-intake flow.  `input` is the outcome of `int(text)`.
Invalid or non-positive input re-prompts the same state; otherwise the
price follows the tiered table (the brackets of `COIN_PACKAGES` in
src/config.py) with the floating-point product `coins_requested * 0.03`
above 1000, and a purchase form row is recorded (the bracket prices 5,
10, 18 and 30 are integers, exactly representable in the REAL column). -/
def purchase_coins (db : DB) (user_id : Int) (name phone : String)
    (input : Option Int) : PurchaseResult × DB :=
  match input with
  | none => (.reprompt, db)
  | some n =>
    if n ≤ 0 then
      (.reprompt, db)
    else
      let price : ℚ :=
        if n ≤ 100 then 5
        else if n ≤ 250 then 10
        else if n ≤ 500 then 18
        else if n ≤ 1000 then 30
        else mul003 n
      (.submitted n price,
       { db with purchase_forms := db.purchase_forms ++
          [{ user_id := user_id, name := name, phone := phone
             coins_requested := n, amount_euro := price }] })

/-- One mutating operation of the exposed interface: the DatabaseManager
primitives (callable directly from the admin commands, e.g.
`/admin_richiesta` at src/bot.py line 1043 and `/admin_coin` at line 1136)
and the transport-layer handlers composed from them. -/
inductive Step : DB → DB → Prop where
  | createUser (db : DB) (tid : Int) :
      Step db (create_user db tid).2
  | updateBalance (db : DB) (tid amount : Int) :
      Step db (update_user_balance db tid amount).2
  | adminRequest (db : DB) (uid : Int) (link : String) (a : ActionType) (q c : Int) :
      Step db (create_interaction_request db uid link a q c).2
  | quantity (db : DB) (uid : Int) (a : ActionType) (link : String) (input : Option Int) :
      Step db (handle_quantity db uid a link input).2
  | confirm (db : DB) (uid iid : Int) :
      Step db (handle_confirm_action db uid iid).2
  | record (db : DB) (uid iid : Int) (proofRef : Option String) :
      Step db (record_completion db uid iid proofRef).2
  | purchase (db : DB) (uid : Int) (name phone : String) (input : Option Int) :
      Step db (purchase_coins db uid name phone input).2
  | completeRaw (db : DB) (uid iid e : Int) (pt : ProfileType) (sid : Option String) :
      Step db (complete_interaction db uid iid e pt sid).2

/-- Store states reachable from the fresh database through the exposed
operations. -/
inductive Reachable : DB → Prop where
  | init : Reachable DB.init
  | step {db db' : DB} : Reachable db → Step db db' → Reachable db'

/-! ### Store invariants preserved by every exposed operation -/

/-- Two completion rows do not record the same (account, request) pair. -/
def PairDistinct (a b : UserInteraction) : Prop :=
  ¬(a.user_id = b.user_id ∧ a.interaction_id = b.interaction_id)

/-- Invariant bundle: completion rows are pairwise distinct on the
(account, request) pair, every request row has status active, and every
completed count is non-negative. -/
def Good (db : DB) : Prop :=
  db.user_interactions.Pairwise PairDistinct ∧
  (∀ i ∈ db.interactions, i.status = "active") ∧
  (∀ i ∈ db.interactions, 0 ≤ i.completed_count)

lemma good_init : Good DB.init := by
  refine ⟨?_, ?_, ?_⟩ <;> simp [DB.init]

lemma good_create_user (db : DB) (tid : Int) (h : Good db) :
    Good (create_user db tid).2 := by
  unfold create_user
  split
  · exact h
  · exact h

lemma good_update_user_balance (db : DB) (tid amount : Int) (h : Good db) :
    Good (update_user_balance db tid amount).2 := h

lemma good_create_interaction_request (db : DB) (uid : Int) (link : String)
    (a : ActionType) (q c : Int) (h : Good db) :
    Good (create_interaction_request db uid link a q c).2 := by
  obtain ⟨h1, h2, h3⟩ := h
  refine ⟨h1, ?_, ?_⟩ <;>
  · intro i hi
    simp only [create_interaction_request, List.mem_append, List.mem_singleton] at hi
    rcases hi with hi | hi
    · first
        | exact h2 i hi
        | exact h3 i hi
    · subst hi
      simp

lemma good_complete_interaction (db : DB) (uid iid e : Int) (pt : ProfileType)
    (sid : Option String) (h : Good db) :
    Good (complete_interaction db uid iid e pt sid).2 := by
  obtain ⟨h1, h2, h3⟩ := h
  unfold complete_interaction
  split
  · exact ⟨h1, h2, h3⟩
  · next hc =>
    refine ⟨?_, ?_, ?_⟩
    · rw [List.pairwise_append]
      refine ⟨h1, by simp [PairDistinct], ?_⟩
      intro a ha b hb
      simp only [List.mem_singleton] at hb
      subst hb
      intro ⟨hu, hi⟩
      simp only [hasCompleted, List.any_eq_true, Bool.and_eq_true, beq_iff_eq,
        Bool.not_eq_true] at hc
      push_neg at hc
      exact absurd hi (hc a ha hu)
    · intro i hi
      simp only [List.mem_map] at hi
      obtain ⟨j, hj, rfl⟩ := hi
      split
      · exact h2 j hj
      · exact h2 j hj
    · intro i hi
      simp only [List.mem_map] at hi
      obtain ⟨j, hj, rfl⟩ := hi
      split
      · have := h3 j hj
        simp only
        omega
      · exact h3 j hj

lemma good_handle_quantity (db : DB) (uid : Int) (a : ActionType) (link : String)
    (input : Option Int) (h : Good db) :
    Good (handle_quantity db uid a link input).2 := by
  unfold handle_quantity
  match input with
  | none => exact h
  | some quantity =>
    simp only
    split
    · exact h
    · match get_user db uid with
      | none => exact h
      | some user =>
        simp only
        split
        · exact h
        · exact good_create_interaction_request _ _ _ _ _ _
            (good_update_user_balance _ _ _ h)

lemma good_handle_confirm_action (db : DB) (uid iid : Int) (h : Good db) :
    Good (handle_confirm_action db uid iid).2 := by
  unfold handle_confirm_action
  match find_interaction db iid with
  | none => exact h
  | some row => exact good_complete_interaction _ _ _ _ _ _ h

lemma good_record_completion (db : DB) (uid iid : Int) (proofRef : Option String)
    (h : Good db) : Good (record_completion db uid iid proofRef).2 := by
  unfold record_completion
  match find_interaction db iid with
  | none => exact h
  | some row =>
    simp only
    split
    · split
      · match proofRef with
        | none => exact h
        | some sid =>
          simp only
          split
          · exact h
          · exact good_complete_interaction _ _ _ _ _ _ h
      · exact good_handle_confirm_action db uid iid h
    · exact h

lemma good_purchase_coins (db : DB) (uid : Int) (name phone : String)
    (input : Option Int) (h : Good db) :
    Good (purchase_coins db uid name phone input).2 := by
  unfold purchase_coins
  match input with
  | none => exact h
  | some n =>
    simp only
    split
    · exact h
    · exact h

lemma good_step {db db' : DB} (h : Good db) (s : Step db db') : Good db' := by
  cases s with
  | createUser tid => exact good_create_user db tid h
  | updateBalance tid amount => exact good_update_user_balance db tid amount h
  | adminRequest uid link a q c => exact good_create_interaction_request db uid link a q c h
  | quantity uid a link input => exact good_handle_quantity db uid a link input h
  | confirm uid iid => exact good_handle_confirm_action db uid iid h
  | record uid iid proofRef => exact good_record_completion db uid iid proofRef h
  | purchase uid name phone input => exact good_purchase_coins db uid name phone input h
  | completeRaw uid iid e pt sid => exact good_complete_interaction db uid iid e pt sid h

lemma good_reachable {db : DB} (h : Reachable db) : Good db := by
  induction h with
  | init => exact good_init
  | step _ s ih => exact good_step ih s

/-! ### Concrete reachable traces used by witnesses and counterexamples -/

/-- Three fresh accounts (ids 1, 2, 3), each with the starting balance 10. -/
def dbU1 : DB := (create_user DB.init 1).2

def dbU2 : DB := (create_user dbU1 2).2

def dbU3 : DB := (create_user dbU2 3).2

/-- Account 1 creates a like request (cost 1) for a single unit:
request id 1, quantity 1, completed count 0, status active. -/
def dbReq : DB :=
  (handle_quantity dbU3 1 .like "https://instagram.com/p/A1/" (some 1)).2

/-- Account 2 confirms request 1: its completed count reaches its
quantity (1), yet its status stays active. -/
def dbFull : DB := (handle_confirm_action dbReq 2 1).2

/-- Account 3 also confirms request 1: nothing blocks the completion, so
the completed count (2) exceeds the quantity (1). -/
def dbOver : DB := (handle_confirm_action dbFull 3 1).2

lemma reachable_dbU3 : Reachable dbU3 :=
  Reachable.step
    (Reachable.step
      (Reachable.step Reachable.init (Step.createUser DB.init 1))
      (Step.createUser dbU1 2))
    (Step.createUser dbU2 3)

lemma reachable_dbReq : Reachable dbReq :=
  Reachable.step reachable_dbU3
    (Step.quantity dbU3 1 .like "https://instagram.com/p/A1/" (some 1))

lemma reachable_dbFull : Reachable dbFull :=
  Reachable.step reachable_dbReq (Step.confirm dbReq 2 1)

lemma reachable_dbOver : Reachable dbOver :=
  Reachable.step reachable_dbFull (Step.confirm dbFull 3 1)

/-- Account 1 creates a follow request (cost 5, at the proof threshold)
for two units: request id 1, quantity 2, total cost 10, balance 10 → 0. -/
def dbReq5 : DB :=
  (handle_quantity dbU3 1 .follow "https://instagram.com/p/A1/" (some 2)).2

/-! ### List-level helper lemmas -/

lemma find_update (l : List UserRow) (uid amt : Int) (user : UserRow)
    (h : l.find? (fun u => u.telegram_id == uid) = some user) :
    (l.map (fun u =>
        if u.telegram_id == uid then { u with coin_balance := u.coin_balance + amt }
        else u)).find? (fun u => u.telegram_id == uid)
      = some { user with coin_balance := user.coin_balance + amt } := by
  induction l with
  | nil => simp at h
  | cons a l ih =>
    by_cases ha : a.telegram_id = uid
    · rw [List.find?_cons_of_pos _ (by simp [ha])] at h
      obtain rfl : a = user := by simpa using h
      simp only [List.map_cons, if_pos (by simp [ha] : (a.telegram_id == uid) = true)]
      exact List.find?_cons_of_pos _ (by simp [ha])
    · rw [List.find?_cons_of_neg _ (by simp [ha])] at h
      simp only [List.map_cons, if_neg (by simp [ha] : ¬(a.telegram_id == uid) = true)]
      rw [List.find?_cons_of_neg _ (by simp [ha])]
      exact ih h

lemma find_increment (l : List Interaction) (iid : Int) (row : Interaction)
    (h : l.find? (fun i => i.id == iid) = some row) :
    (l.map (fun i =>
        if i.id == iid then { i with completed_count := i.completed_count + 1 }
        else i)).find? (fun i => i.id == iid)
      = some { row with completed_count := row.completed_count + 1 } := by
  induction l with
  | nil => simp at h
  | cons a l ih =>
    by_cases ha : a.id = iid
    · rw [List.find?_cons_of_pos _ (by simp [ha])] at h
      obtain rfl : a = row := by simpa using h
      simp only [List.map_cons, if_pos (by simp [ha] : (a.id == iid) = true)]
      exact List.find?_cons_of_pos _ (by simp [ha])
    · rw [List.find?_cons_of_neg _ (by simp [ha])] at h
      simp only [List.map_cons, if_neg (by simp [ha] : ¬(a.id == iid) = true)]
      rw [List.find?_cons_of_neg _ (by simp [ha])]
      exact ih h

lemma map_balance_id (l : List UserRow) (uid e : Int)
    (h : ∀ u ∈ l, u.telegram_id ≠ uid) :
    l.map (fun u =>
      if u.telegram_id == uid then { u with coin_balance := u.coin_balance + e }
      else u) = l := by
  induction l with
  | nil => rfl
  | cons a l ih =>
    simp only [List.map_cons,
      if_neg (by simp [h a (List.mem_cons_self a l)] :
        ¬(a.telegram_id == uid) = true)]
    rw [ih (fun u hu => h u (List.mem_cons_of_mem a hu))]

/-! ### Claims -/

/-- C1.  In every reachable store state the completion rows are pairwise
distinct on the (account id, request id) pair, and a completion call for a
pair that already has a row returns the already-completed outcome (False)
and leaves the whole store — balances, completion rows and request
counters — unchanged. -/
theorem exactly_once_completion :
    (∀ db : DB, Reachable db → db.user_interactions.Pairwise PairDistinct) ∧
    (∀ (db : DB) (uid iid e : Int) (pt : ProfileType) (sid : Option String),
      hasCompleted db uid iid = true →
      complete_interaction db uid iid e pt sid = (false, db)) := by
  constructor
  · exact fun db h => (good_reachable h).1
  · intro db uid iid e pt sid hc
    simp [complete_interaction, hc]

/-- Witness for C1 at the concrete trace: account 2 has completed request
1 in `dbFull`, and a second attempt changes nothing. -/
theorem exactly_once_completion_witness :
    dbFull.user_interactions.Pairwise PairDistinct ∧
    hasCompleted dbFull 2 1 = true ∧
    complete_interaction dbFull 2 1 0 .primary none = (false, dbFull) :=
  ⟨exactly_once_completion.1 dbFull reachable_dbFull, by decide,
   exactly_once_completion.2 dbFull 2 1 0 .primary none (by decide)⟩

/-- C2 counterexample.  The claim "status is closed exactly when the
completed count reaches the quantity" is false on the code: in the
reachable state `dbFull` request 1 has completed count 1 equal to its
quantity, yet its status is still active — no code path ever writes a
closed status. -/
theorem closure_claim_counterexample :
    ¬ (∀ db : DB, Reachable db → ∀ i ∈ db.interactions,
        (i.status = "closed" ↔ i.completed_count = i.quantity)) := by
  intro h
  have hrow := h dbFull reachable_dbFull
    { id := 1, requester_id := 1, post_link := "https://instagram.com/p/A1/",
      action_type := .like, quantity := 1, cost_per_action := 1, total_cost := 1,
      completed_count := 1, status := "active" } (by decide)
  have : ("active" : String) = "closed" := hrow.mpr rfl
  exact absurd this (by decide)

/-- C2 amended.  Completion never transitions a request's status: in every
reachable state every request row still has status active (a full request
is hidden from the matching query by its completed-count filter, not by a
status change). -/
theorem requests_never_closed :
    ∀ db : DB, Reachable db → ∀ i ∈ db.interactions, i.status = "active" :=
  fun _ h => (good_reachable h).2.1

/-- Witness for the amended C2 at the reachable state `dbFull`. -/
theorem requests_never_closed_witness :
    Interaction.status
      { id := 1, requester_id := 1, post_link := "https://instagram.com/p/A1/",
        action_type := .like, quantity := 1, cost_per_action := 1, total_cost := 1,
        completed_count := 1, status := "active" } = "active" :=
  requests_never_closed dbFull reachable_dbFull _ (by decide)

/-- C4 counterexample.  The claimed invariant completed_count ≤ quantity
fails: in the reachable state `dbOver`, obtained by two distinct accounts
confirming the same single-unit request, the request's completed count is
2 while its quantity is 1 — `complete_interaction` never checks the
quantity or the status. -/
theorem count_bound_claim_counterexample :
    ¬ (∀ db : DB, Reachable db → ∀ i ∈ db.interactions,
        0 ≤ i.completed_count ∧ i.completed_count ≤ i.quantity) := by
  intro h
  have hrow := h dbOver reachable_dbOver
    { id := 1, requester_id := 1, post_link := "https://instagram.com/p/A1/",
      action_type := .like, quantity := 1, cost_per_action := 1, total_cost := 1,
      completed_count := 2, status := "active" } (by decide)
  exact absurd hrow (by decide)

/-- C4 amended.  Only the lower bound holds: in every reachable state
every request has a non-negative completed count; the upper bound by the
quantity is not enforced by any completion path. -/
theorem completed_count_nonneg :
    ∀ db : DB, Reachable db → ∀ i ∈ db.interactions, 0 ≤ i.completed_count :=
  fun _ h => (good_reachable h).2.2

/-- Witness for the amended C4 at the reachable state `dbOver`. -/
theorem completed_count_nonneg_witness :
    (0 : Int) ≤ Interaction.completed_count
      { id := 1, requester_id := 1, post_link := "https://instagram.com/p/A1/",
        action_type := .like, quantity := 1, cost_per_action := 1, total_cost := 1,
        completed_count := 2, status := "active" } :=
  completed_count_nonneg dbOver reachable_dbOver _ (by decide)

/-- C3.  The quantity step of the new-request flow debits the owner
exactly quantity × price-per-unit: with a balance equal to the total cost
the request row is created and the balance drops to 0; with any smaller
balance the flow reports insufficient balance and the store is entirely
unchanged. -/
theorem create_request_exact_debit :
    ∀ (db : DB) (uid : Int) (a : ActionType) (link : String) (q : Int)
      (user : UserRow),
      get_user db uid = some user → 0 < q →
      (user.coin_balance = q * ACTION_COSTS a →
        (handle_quantity db uid a link (some q)).1 = .created db.next_interaction_id ∧
        get_user (handle_quantity db uid a link (some q)).2 uid
          = some { user with coin_balance := 0 } ∧
        (handle_quantity db uid a link (some q)).2.interactions
          = db.interactions ++
            [{ id := db.next_interaction_id, requester_id := uid, post_link := link,
               action_type := a, quantity := q, cost_per_action := ACTION_COSTS a,
               total_cost := q * ACTION_COSTS a, completed_count := 0,
               status := "active" }]) ∧
      (user.coin_balance < q * ACTION_COSTS a →
        handle_quantity db uid a link (some q) = (.insufficient, db)) := by
  intro db uid a link q user hu hq
  constructor
  · intro hbal
    simp only [handle_quantity, hu, if_neg (by omega : ¬ q ≤ 0),
      if_neg (by omega : ¬ user.coin_balance < q * ACTION_COSTS a)]
    refine ⟨rfl, ?_, rfl⟩
    have h2 := find_update db.users uid (-(q * ACTION_COSTS a)) user hu
    show (db.users.map _).find? _ = _
    rw [h2]
    have h0 : user.coin_balance + -(q * ACTION_COSTS a) = 0 := by omega
    rw [h0]
  · intro hlt
    simp only [handle_quantity, hu, if_neg (by omega : ¬ q ≤ 0), if_pos hlt]

/-- Witness for C3, Scenario A and the boundary case: in `dbU3` account 1
has balance 10; a follow request (cost 5) for 2 units costs exactly 10 and
succeeds leaving balance 0, while 3 units (cost 15) fail with no change. -/
theorem create_request_exact_debit_witness :
    ((handle_quantity dbU3 1 .follow "https://instagram.com/p/A1/" (some 2)).1
        = .created 1 ∧
      get_user (handle_quantity dbU3 1 .follow "https://instagram.com/p/A1/" (some 2)).2 1
        = some { telegram_id := 1, coin_balance := 0 } ∧
      (handle_quantity dbU3 1 .follow "https://instagram.com/p/A1/" (some 2)).2.interactions
        = dbU3.interactions ++
          [{ id := 1, requester_id := 1, post_link := "https://instagram.com/p/A1/",
             action_type := .follow, quantity := 2, cost_per_action := 5,
             total_cost := 10, completed_count := 0, status := "active" }]) ∧
    handle_quantity dbU3 1 .follow "https://instagram.com/p/A1/" (some 3)
      = (.insufficient, dbU3) :=
  ⟨(create_request_exact_debit dbU3 1 .follow "https://instagram.com/p/A1/" 2
      { telegram_id := 1, coin_balance := 10 } (by decide) (by decide)).1 (by decide),
   (create_request_exact_debit dbU3 1 .follow "https://instagram.com/p/A1/" 3
      { telegram_id := 1, coin_balance := 10 } (by decide) (by decide)).2 (by decide)⟩

lemma floatScale_eq_zero (fuel m : Nat) (h : m < 2 ^ 53) :
    floatScale fuel m = 0 := by
  cases fuel with
  | zero => rfl
  | succ n => simp only [floatScale, if_pos h]

lemma roundFloatNat_small (m : Nat) (h : m < 2 ^ 53) : roundFloatNat m = m := by
  unfold roundFloatNat
  rw [floatScale_eq_zero 1100 m h]
  simp

lemma roundFloat_self (p : Int) (h0 : 0 ≤ p) (h53 : p ≤ 2 ^ 53) :
    roundFloat p = p := by
  rcases lt_or_eq_of_le h53 with hlt | heq
  · unfold roundFloat
    rw [if_neg (by omega)]
    rw [roundFloatNat_small p.natAbs (by omega)]
    omega
  · subst heq
    decide

lemma floor_quarter (p : Int) : ⌊(p : ℚ) * 0.25⌋ = p / 4 := by
  have he : (p : ℚ) * 0.25 = (p : ℚ) / ((4 : ℕ) : ℚ) := by push_cast; ring_nf
  rw [he, Rat.floor_intCast_div_natCast]
  norm_num

lemma floor_eighth (p : Int) : ⌊(p : ℚ) * 0.125⌋ = p / 8 := by
  have he : (p : ℚ) * 0.125 = (p : ℚ) / ((8 : ℕ) : ℚ) := by push_cast; ring_nf
  rw [he, Rat.floor_intCast_div_natCast]
  norm_num

/-- C5 counterexample.  The universal floor formula fails: at price
2^53 + 3 (storable in the int64 column and enterable through the admin
request command) the int → double conversion rounds half-to-even up to
2^53 + 4, so the program computes 2251799813685249 while
⌊price × 0.25⌋ = 2251799813685248. -/
theorem earnings_floor_counterexample :
    ¬ (∀ p : Int, 0 ≤ p →
        calculate_earnings p .primary = ⌊(p : ℚ) * 0.25⌋) := by
  intro h
  have h1 := h (2 ^ 53 + 3) (by norm_num)
  rw [floor_quarter] at h1
  have h2 : calculate_earnings (2 ^ 53 + 3) .primary = 2251799813685249 := by
    decide
  rw [h2] at h1
  have h3 : ((2 : Int) ^ 53 + 3) / 4 = 2251799813685248 := by decide
  rw [h3] at h1
  exact absurd h1 (by decide)

/-- C5 amended.  For every price exactly representable in a double (all
non-negative integers up to 2^53 — every realistic price; the divergence
starts only beyond 2^53) the earnings are the floor of price × 0.25 for
the primary slot and of price × 0.125 for either secondary slot; a
primary completion at price 5 earns exactly 1. -/
theorem earnings_floor_representable :
    (∀ p : Int, 0 ≤ p → p ≤ 2 ^ 53 →
      calculate_earnings p .primary = ⌊(p : ℚ) * 0.25⌋ ∧
      calculate_earnings p .secondary_1 = ⌊(p : ℚ) * 0.125⌋ ∧
      calculate_earnings p .secondary_2 = ⌊(p : ℚ) * 0.125⌋) ∧
    calculate_earnings 5 .primary = 1 := by
  constructor
  · intro p h0 h53
    have hr : roundFloat p = p := roundFloat_self p h0 h53
    refine ⟨?_, ?_, ?_⟩ <;>
      simp only [calculate_earnings, hr, floor_quarter, floor_eighth,
        reduceCtorEq, if_true, if_false, reduceIte] <;>
      exact Int.tdiv_eq_ediv h0 (by norm_num)
  · decide

/-- Witness for the amended C5 at price 5. -/
theorem earnings_floor_representable_witness :
    calculate_earnings 5 .primary = ⌊((5 : Int) : ℚ) * 0.25⌋ :=
  (earnings_floor_representable.1 5 (by norm_num) (by norm_num)).1

lemma toRecordResult_ne_proofRequired (c : ConfirmResult) :
    toRecordResult c ≠ .proofRequired := by
  cases c <;> simp [toRecordResult]

/-- C6.  On a request the composed operation can see (its row exists and
its requester passes the users JOIN of the routing lookup) priced at or
above the proof threshold 5, a completion attempt without a proof
reference yields proof-required and records nothing; with a proof
present, or on a request priced below the threshold, the outcome is never
proof-required. -/
theorem proof_threshold_gate :
    ∀ (db : DB) (uid iid : Int) (proofRef : Option String) (row : Interaction),
      find_interaction db iid = some row →
      db.users.any (fun u => u.telegram_id == row.requester_id) = true →
      ((5 ≤ row.cost_per_action ∧ proofRef = none) →
        record_completion db uid iid proofRef = (.proofRequired, db)) ∧
      (¬(5 ≤ row.cost_per_action ∧ proofRef = none) →
        (record_completion db uid iid proofRef).1 ≠ .proofRequired) := by
  intro db uid iid proofRef row hrow hjoin
  constructor
  · rintro ⟨h5, rfl⟩
    simp only [record_completion, hrow, hjoin, if_true, if_pos h5]
  · intro hng
    simp only [record_completion, hrow, hjoin, if_true]
    by_cases h5 : 5 ≤ row.cost_per_action
    · rw [if_pos h5]
      match proofRef with
      | none => exact absurd ⟨h5, rfl⟩ hng
      | some sid =>
        simp only
        split
        · simp
        · split <;> simp
    · rw [if_neg h5]
      exact toRecordResult_ne_proofRequired _

/-- Witness for C6: in `dbReq5` request 1 costs 5 (at the threshold) and
its requester is registered, so a proofless attempt is rejected with
proof-required and the store is untouched; in `dbReq` request 1 costs 1,
so the proofless attempt is not rejected on proof grounds. -/
theorem proof_threshold_gate_witness :
    record_completion dbReq5 2 1 none = (.proofRequired, dbReq5) ∧
    (record_completion dbReq 2 1 none).1 ≠ .proofRequired :=
  ⟨(proof_threshold_gate dbReq5 2 1 none
      { id := 1, requester_id := 1, post_link := "https://instagram.com/p/A1/",
        action_type := .follow, quantity := 2, cost_per_action := 5,
        total_cost := 10, completed_count := 0, status := "active" }
      (by decide) (by decide)).1 (by decide),
   (proof_threshold_gate dbReq 2 1 none
      { id := 1, requester_id := 1, post_link := "https://instagram.com/p/A1/",
        action_type := .like, quantity := 1, cost_per_action := 1,
        total_cost := 1, completed_count := 0, status := "active" }
      (by decide) (by decide)).2 (by decide)⟩

/-- C7.  A completion attempt on a request id with no request row fails
with not-found through both completion entry points, and returns the store
exactly as it was: no completion row, no counter change, no credit. -/
theorem completion_not_found :
    ∀ (db : DB) (uid iid : Int) (proofRef : Option String),
      find_interaction db iid = none →
      handle_confirm_action db uid iid = (.notFound, db) ∧
      record_completion db uid iid proofRef = (.notFound, db) := by
  intro db uid iid proofRef h
  exact ⟨by simp [handle_confirm_action, h], by simp [record_completion, h]⟩

/-- Witness for C7: the fresh store has no request 7. -/
theorem completion_not_found_witness :
    handle_confirm_action DB.init 1 7 = (.notFound, DB.init) ∧
    record_completion DB.init 1 7 none = (.notFound, DB.init) :=
  completion_not_found DB.init 1 7 none (by decide)

/-- C8.  Whatever order ORDER BY RANDOM() produces, every candidate the
matching query returns has status active, a completed count strictly below
its quantity, and a requester other than the caller, and at most `limit`
candidates are returned. -/
theorem list_open_requests :
    ∀ (shuffle : List Interaction → List Interaction),
      (∀ l : List Interaction, (shuffle l).Perm l) →
      ∀ (db : DB) (uid : Int) (limit : Nat),
        (get_available_interactions shuffle db uid limit).length ≤ limit ∧
        ∀ i ∈ get_available_interactions shuffle db uid limit,
          i.status = "active" ∧ i.completed_count < i.quantity ∧
          i.requester_id ≠ uid := by
  intro shuffle hperm db uid limit
  constructor
  · rw [get_available_interactions, List.length_take]
    exact Nat.min_le_left _ _
  · intro i hi
    have hi2 : i ∈ shuffle (db.interactions.filter (availablePred db uid)) :=
      List.mem_of_mem_take hi
    have hi3 : i ∈ db.interactions.filter (availablePred db uid) :=
      (hperm _).mem_iff.mp hi2
    have hp : availablePred db uid i = true := List.of_mem_filter hi3
    simp only [availablePred, Bool.and_eq_true, bne_iff_ne, beq_iff_eq,
      decide_eq_true_eq] at hp
    exact ⟨hp.1.1.2, hp.1.2, hp.1.1.1⟩

/-- Witness for C8 with the identity order at `dbReq`: the single open
request is returned for caller 2 and satisfies all three conditions. -/
theorem list_open_requests_witness :
    (get_available_interactions (fun l => l) dbReq 2 5).length ≤ 5 ∧
    (Interaction.status
        { id := 1, requester_id := 1, post_link := "https://instagram.com/p/A1/",
          action_type := .like, quantity := 1, cost_per_action := 1, total_cost := 1,
          completed_count := 0, status := "active" } = "active" ∧
      Interaction.completed_count
        { id := 1, requester_id := 1, post_link := "https://instagram.com/p/A1/",
          action_type := .like, quantity := 1, cost_per_action := 1, total_cost := 1,
          completed_count := 0, status := "active" } <
        Interaction.quantity
        { id := 1, requester_id := 1, post_link := "https://instagram.com/p/A1/",
          action_type := .like, quantity := 1, cost_per_action := 1, total_cost := 1,
          completed_count := 0, status := "active" } ∧
      Interaction.requester_id
        { id := 1, requester_id := 1, post_link := "https://instagram.com/p/A1/",
          action_type := .like, quantity := 1, cost_per_action := 1, total_cost := 1,
          completed_count := 0, status := "active" } ≠ 2) :=
  ⟨(list_open_requests (fun l => l) (fun l => List.Perm.refl l) dbReq 2 5).1,
   (list_open_requests (fun l => l) (fun l => List.Perm.refl l) dbReq 2 5).2 _
     (by decide)⟩

/-- C10.  The store-level completion does not require the acting account
to exist: with no users row for the caller, an existing request and no
prior completion, it still reports success, appends the completion row and
increments the request's count, while the users table — every balance —
is left exactly as it was. -/
theorem complete_without_account :
    ∀ (db : DB) (uid iid e : Int) (pt : ProfileType) (sid : Option String)
      (row : Interaction),
      (∀ u ∈ db.users, u.telegram_id ≠ uid) →
      hasCompleted db uid iid = false →
      find_interaction db iid = some row →
      (complete_interaction db uid iid e pt sid).1 = true ∧
      (complete_interaction db uid iid e pt sid).2.user_interactions =
        db.user_interactions ++
          [{ user_id := uid, interaction_id := iid, earnings := e,
             profile_type := pt, screenshot_id := sid }] ∧
      (complete_interaction db uid iid e pt sid).2.users = db.users ∧
      find_interaction (complete_interaction db uid iid e pt sid).2 iid =
        some { row with completed_count := row.completed_count + 1 } := by
  intro db uid iid e pt sid row hnouser hnc hrow
  have hc : ¬ hasCompleted db uid iid = true := by rw [hnc]; exact Bool.false_ne_true
  refine ⟨?_, ?_, ?_, ?_⟩
  · simp only [complete_interaction, if_neg hc]
  · simp only [complete_interaction, if_neg hc]
  · simp only [complete_interaction, if_neg hc]
    exact map_balance_id db.users uid e hnouser
  · simp only [complete_interaction, if_neg hc, find_interaction]
    exact find_increment db.interactions iid row hrow

/-- Witness for C10: account 99 does not exist in `dbReq`, yet completing
request 1 as 99 succeeds, records the row and increments the count, and
leaves the users table unchanged. -/
theorem complete_without_account_witness :
    (complete_interaction dbReq 99 1 0 .primary none).1 = true ∧
    (complete_interaction dbReq 99 1 0 .primary none).2.user_interactions =
      dbReq.user_interactions ++
        [{ user_id := 99, interaction_id := 1, earnings := 0,
           profile_type := .primary, screenshot_id := none }] ∧
    (complete_interaction dbReq 99 1 0 .primary none).2.users = dbReq.users ∧
    find_interaction (complete_interaction dbReq 99 1 0 .primary none).2 1 =
      some { id := 1, requester_id := 1, post_link := "https://instagram.com/p/A1/",
             action_type := .like, quantity := 1, cost_per_action := 1,
             total_cost := 1, completed_count := 1, status := "active" } :=
  complete_without_account dbReq 99 1 0 .primary none
    { id := 1, requester_id := 1, post_link := "https://instagram.com/p/A1/",
      action_type := .like, quantity := 1, cost_per_action := 1,
      total_cost := 1, completed_count := 0, status := "active" }
    (by decide) (by decide) (by decide)

end Crescita
